import Mathlib

/-!
Formal model of the stdio JSON-RPC MCP client in
`src/sphero_rvr_chat/mcp_client.py` (class `MCPClient` and
`convert_tools_to_ollama`).

Python strings are modelled as `List Char`; Python objects produced by
`json.loads` are modelled by the inductive `Json` below (dictionaries as
ordered association lists, integer numerals).  Python expressions that can
raise are modelled in `Except String`, the error string naming the Python
exception class.
-/

namespace RvrChat

/-- JSON values as produced by Python's `json.loads`: objects are ordered
association lists, numbers are modelled as integers (the protocol traffic of
this client uses only integral numbers). -/
inductive Json where
  | null
  | bool (b : Bool)
  | num (n : Int)
  | str (s : String)
  | arr (elems : List Json)
  | obj (fields : List (String × Json))

/-- Whitespace characters stripped by Python's `str.strip()` and skipped by
`json.loads` (the `\f`/`\v` cases never occur in this protocol). -/
def isWsChar (c : Char) : Bool :=
  c = ' ' || c = '\t' || c = '\n' || c = '\r'

/-- Drop leading whitespace. -/
def skipWs : List Char → List Char
  | [] => []
  | c :: cs => if isWsChar c then skipWs cs else c :: cs

/-- Python `str.strip()`: remove leading and trailing whitespace. -/
def pyStrip (cs : List Char) : List Char :=
  ((cs.dropWhile isWsChar).reverse.dropWhile isWsChar).reverse

/-- JSON string escapes recognised by `json.loads` (the `\uXXXX` form is not
modelled; it does not occur in this protocol). -/
def escChar : Char → Option Char
  | 'n' => some '\n'
  | 't' => some '\t'
  | '"' => some '"'
  | 'b' => some (Char.ofNat 8)
  | '/' => some '/'
  | 'r' => some '\r'
  | 'f' => some (Char.ofNat 12)
  | '\\' => some '\\'
  | _ => none

/-- Parse the body of a JSON string after the opening quote, returning the
content and the input remaining after the closing quote. -/
def parseStringBody : List Char → Option (List Char × List Char)
  | [] => none
  | '"' :: cs => some ([], cs)
  | '\\' :: e :: cs =>
    match escChar e with
    | some c => (parseStringBody cs).map (fun p => (c :: p.1, p.2))
    | none => none
  | c :: cs => (parseStringBody cs).map (fun p => (c :: p.1, p.2))

/-- Numeric value of a list of decimal digits. -/
def digitsToNat (ds : List Char) : Nat :=
  ds.foldl (fun n c => n * 10 + (c.toNat - 48)) 0

/-- Parse an integer numeral (optional leading minus). -/
def parseNumber (cs : List Char) : Option (Int × List Char) :=
  match cs with
  | '-' :: rest =>
    let ds := rest.takeWhile Char.isDigit
    if ds.isEmpty then none
    else some (-(digitsToNat ds : Int), rest.drop ds.length)
  | _ =>
    let ds := cs.takeWhile Char.isDigit
    if ds.isEmpty then none
    else some ((digitsToNat ds : Int), cs.drop ds.length)

mutual

/-- Fuel-indexed JSON value parser modelling `json.loads` on the integral
subset of JSON used by this protocol. -/
def parseValue : Nat → List Char → Option (Json × List Char)
  | 0, _ => none
  | fuel + 1, cs =>
    match skipWs cs with
    | '"' :: rest =>
      (parseStringBody rest).map (fun p => (Json.str (String.mk p.1), p.2))
    | '{' :: rest =>
      match skipWs rest with
      | '}' :: r => some (Json.obj [], r)
      | _ => (parseMembers fuel rest).map (fun p => (Json.obj p.1, p.2))
    | '[' :: rest =>
      match skipWs rest with
      | ']' :: r => some (Json.arr [], r)
      | _ => (parseElems fuel rest).map (fun p => (Json.arr p.1, p.2))
    | 't' :: 'r' :: 'u' :: 'e' :: r => some (Json.bool true, r)
    | 'f' :: 'a' :: 'l' :: 's' :: 'e' :: r => some (Json.bool false, r)
    | 'n' :: 'u' :: 'l' :: 'l' :: r => some (Json.null, r)
    | other => (parseNumber other).map (fun p => (Json.num p.1, p.2))

/-- Parse one or more `"key": value` members of a JSON object, consuming the
closing brace. -/
def parseMembers : Nat → List Char → Option (List (String × Json) × List Char)
  | 0, _ => none
  | fuel + 1, cs =>
    match skipWs cs with
    | '"' :: rest => do
      let (k, r1) ← parseStringBody rest
      match skipWs r1 with
      | ':' :: r2 => do
        let (v, r3) ← parseValue fuel r2
        match skipWs r3 with
        | ',' :: r4 => do
          let (fs, r5) ← parseMembers fuel r4
          pure ((String.mk k, v) :: fs, r5)
        | '}' :: r4 => pure ([(String.mk k, v)], r4)
        | _ => none
      | _ => none
    | _ => none

/-- Parse one or more elements of a JSON array, consuming the closing
bracket. -/
def parseElems : Nat → List Char → Option (List Json × List Char)
  | 0, _ => none
  | fuel + 1, cs => do
    let (v, r1) ← parseValue fuel cs
    match skipWs r1 with
    | ',' :: r2 => do
      let (vs, r3) ← parseElems fuel r2
      pure (v :: vs, r3)
    | ']' :: r2 => pure ([v], r2)
    | _ => none

end

/-- Model of Python `json.loads` on a string: parse one value and require
only whitespace to remain (otherwise `json.loads` raises
`JSONDecodeError`, modelled as `none`). -/
def jsonLoads (cs : List Char) : Option Json :=
  match parseValue (cs.length + 1) cs with
  | some (v, rest) => if (skipWs rest).isEmpty then some v else none
  | none => none

/-- First binding of a key in an ordered association list (keys produced by
`json.loads` are unique, so first-match equals Python dict lookup). -/
def lookupField : List (String × Json) → String → Option Json
  | [], _ => none
  | (k, v) :: fs, key => if k = key then some v else lookupField fs key

/-- Python `key in d` for a dict; `false` on non-dicts.  Every response the
read loop delivers decodes a line whose first character is a brace, so it is
always an object and the non-dict cases (substring test on strings,
`TypeError` on numbers) are unreachable. -/
def Json.hasKey : Json → String → Bool
  | .obj fs, k => (lookupField fs k).isSome
  | _, _ => false

/-- Python truthiness of a decoded JSON value (`if x:`). -/
def pyTruthy : Json → Bool
  | .null => false
  | .bool b => b
  | .num n => n != 0
  | .str s => s != ""
  | .arr l => !l.isEmpty
  | .obj l => !l.isEmpty

/-- Python `x.get(k, default)`: only dicts have `.get`; on any other value
the attribute access raises `AttributeError`. -/
def pyGet (j : Json) (k : String) (d : Json) : Except String Json :=
  match j with
  | .obj fs =>
    match lookupField fs k with
    | some v => .ok v
    | none => .ok d
  | _ => .error "AttributeError"

/-- Python `x[k]` for a string key: dict lookup raising `KeyError` when the
key is absent, `TypeError` when `x` is not subscriptable by strings. -/
def pySubscript (j : Json) (k : String) : Except String Json :=
  match j with
  | .obj fs =>
    match lookupField fs k with
    | some v => .ok v
    | none => .error "KeyError"
  | _ => .error "TypeError"

/-- Python `len(x)` on a decoded JSON value. -/
def pyLen : Json → Except String Nat
  | .str s => .ok s.length
  | .arr l => .ok l.length
  | .obj l => .ok l.length
  | _ => .error "TypeError"

/-- Python `x[0]`: list indexing, string indexing, `KeyError` on dicts
(whose decoded keys are strings, never `0`), `TypeError` otherwise. -/
def pyIndex0 : Json → Except String Json
  | .arr [] => .error "IndexError"
  | .arr (x :: _) => .ok x
  | .str s => if s.isEmpty then .error "IndexError" else .ok (.str (s.take 1))
  | .obj _ => .error "KeyError"
  | _ => .error "TypeError"

/-- One interaction of `self.process.stdout.readline` (run under
`asyncio.wait_for`) with the environment: a line of text arrives, the stream
ends (`readline` returns the empty string), or no complete line arrives
within the remaining time budget (`asyncio.TimeoutError`). -/
inductive ReadEvent where
  | line (s : List Char)
  | eof
  | timeout

/-- The read loop of `MCPClient._request` (mcp_client.py lines 112-135):
read events until one yields a response.  A returned line is stripped;
empty results are skipped; a stripped line starting with a brace is fed to
`json.loads`, whose success ends the loop and whose `JSONDecodeError` is
swallowed; any other line is skipped.  `eof` (readline returned the empty
string, line 122) returns `None`; a `timeout` event, like exhaustion of the
event list (the 30-time-unit deadline elapsing, lines 113-115), raises
`asyncio.TimeoutError`, caught at line 137 to return `None`.  Returns the
outcome together with the events left unconsumed for later calls. -/
def readResponseLoop : List ReadEvent → Option Json × List ReadEvent
  | [] => (none, [])
  | .timeout :: rest => (none, rest)
  | .eof :: rest => (none, rest)
  | .line s :: rest =>
    match pyStrip s with
    | [] => readResponseLoop rest
    | c :: cs =>
      if c = '{' then
        match jsonLoads (c :: cs) with
        | some v => (some v, rest)
        | none => readResponseLoop rest
      else readResponseLoop rest

/-- Mutable per-session client state: the `_request_id` counter initialised
to `0` in `MCPClient.__init__`. -/
structure ClientState where
  request_id : Nat

/-- A JSON-RPC request as written to the child's stdin by
`MCPClient._request` (the `jsonrpc: "2.0"` constant field is left
implicit). -/
structure WireRequest where
  id : Nat
  method : String
  params : Json

/-- Result of one `MCPClient._request` call: the request written to the
wire, the value returned to the caller, the updated client state, and the
read events left unconsumed. -/
structure ReqResult where
  wire : WireRequest
  resp : Option Json
  state : ClientState
  rest : List ReadEvent

/-- `MCPClient._request` (mcp_client.py lines 87-142) for a running
process: under the lock, increment `_request_id`, write the request
carrying the new id, then run the read loop until a decoded candidate, end
of stream, or timeout; the latter two return `None`. -/
def MCPClient._request (st : ClientState) (method : String) (params : Json)
    (evs : List ReadEvent) : ReqResult :=
  let rid := st.request_id + 1
  let out := readResponseLoop evs
  { wire := ⟨rid, method, params⟩, resp := out.1, state := ⟨rid⟩, rest := out.2 }

/-- Requests written to the wire by a sequence of `_request` calls sharing
one client session, threading the state and the unconsumed event stream. -/
def runSession : ClientState → List (String × Json) → List ReadEvent → List WireRequest
  | _, [], _ => []
  | st, c :: calls, evs =>
    let r := MCPClient._request st c.1 c.2 evs
    r.wire :: runSession r.state calls r.rest

/-- A message written to the child's stdin: a request (id-bearing) or a
notification (no id), in write order. -/
inductive WireMsg where
  | request (id : Nat) (method : String) (params : Json)
  | notification (method : String) (params : Json)

/-- The params of the `initialize` request sent by `MCPClient.start`
(mcp_client.py lines 32-36). -/
def initializeParams : Json :=
  Json.obj [("protocolVersion", Json.str "2024-11-05"),
            ("capabilities", Json.obj []),
            ("clientInfo", Json.obj [("name", Json.str "rvr-chat"),
                                     ("version", Json.str "0.1.0")])]

/-- Result of `MCPClient.start`: the boolean it returns, the messages it
wrote in order, and the state and events left for later calls. -/
structure StartResult where
  ok : Bool
  wire : List WireMsg
  state : ClientState
  rest : List ReadEvent

/-- `MCPClient.start` (mcp_client.py lines 19-46) after a successful spawn:
send the `initialize` request through `_request`; if the response is truthy
and carries a `result` key, send the `notifications/initialized`
notification and return `True`, else return `False`. -/
def MCPClient.start (evs : List ReadEvent) : StartResult :=
  let r := MCPClient._request ⟨0⟩ "initialize" initializeParams evs
  let initReq := WireMsg.request r.wire.id "initialize" initializeParams
  match r.resp with
  | some resp =>
    if pyTruthy resp && resp.hasKey "result" then
      { ok := true,
        wire := [initReq,
                 WireMsg.notification "notifications/initialized" (Json.obj [])],
        state := r.state, rest := r.rest }
    else
      { ok := false, wire := [initReq], state := r.state, rest := r.rest }
  | none =>
    { ok := false, wire := [initReq], state := r.state, rest := r.rest }

/-- Observable steps taken by `MCPClient.stop` on the child process:
`terminate` (SIGTERM), `waitReaped` (`wait(timeout=5)` returned, reaping
the child), `waitTimedOut` (`wait` raised `TimeoutExpired`, child not
reaped), `kill` (SIGKILL). -/
inductive StopEvent where
  | terminate
  | waitReaped
  | waitTimedOut
  | kill
deriving DecidableEq

/-- Behaviour of the child process relevant to `stop`: whether it exits
within the 5-time-unit grace period after receiving the termination
signal. -/
structure ProcBehavior where
  exitsWithinGrace : Bool

/-- `MCPClient.stop` (mcp_client.py lines 48-56) on a live process:
`terminate()`, then `wait(timeout=5)`; if the wait raises
`TimeoutExpired`, `kill()`.  The trace records each step in order. -/
def MCPClient.stop (p : ProcBehavior) : List StopEvent :=
  if p.exitsWithinGrace then
    [StopEvent.terminate, StopEvent.waitReaped]
  else
    [StopEvent.terminate, StopEvent.waitTimedOut, StopEvent.kill]

/-- Number of times a `stop` trace reaps (successfully waits on) the
child. -/
def reapCount (tr : List StopEvent) : Nat :=
  tr.countP (fun e => e = StopEvent.waitReaped)

/-- Number of times a `stop` trace sends SIGKILL. -/
def killCount (tr : List StopEvent) : Nat :=
  tr.countP (fun e => e = StopEvent.kill)

/-- Response handling of `MCPClient.list_tools` (mcp_client.py lines
61-63): `response["result"].get("tools", [])` when the response is truthy
and has a `result` key, else the empty list. -/
def listToolsPost (response : Option Json) : Except String Json :=
  match response with
  | some r =>
    if pyTruthy r && r.hasKey "result" then do
      let res ← pySubscript r "result"
      pyGet res "tools" (Json.arr [])
    else .ok (Json.arr [])
  | none => .ok (Json.arr [])

/-- `MCPClient.list_tools` (mcp_client.py lines 58-63): issue a
`tools/list` request and post-process its response. -/
def MCPClient.list_tools (st : ClientState) (evs : List ReadEvent) :
    Except String Json × ClientState × List ReadEvent :=
  let r := MCPClient._request st "tools/list" (Json.obj []) evs
  (listToolsPost r.resp, r.state, r.rest)

/-- The locally synthesised failure value of `call_tool` (mcp_client.py
line 85). -/
def noResponseError : Json :=
  Json.obj [("error", Json.str "No response from MCP server")]

/-- The tail of `MCPClient.call_tool` (mcp_client.py lines 82-85), reached
when no text content was returned: `{"error": response["error"].get(
"message", "Unknown error")}` when the response is truthy with an `error`
key, else `{"error": "No response from MCP server"}`. -/
def callToolErrorBranch (response : Option Json) : Except String Json :=
  match response with
  | some r =>
    if pyTruthy r && r.hasKey "error" then do
      let e ← pySubscript r "error"
      let msg ← pyGet e "message" (Json.str "Unknown error")
      pure (Json.obj [("error", msg)])
    else .ok noResponseError
  | none => .ok noResponseError

/-- Response handling of `MCPClient.call_tool` (mcp_client.py lines
72-85).  When the response is truthy with a `result` key whose `content`
is truthy and of positive length, takes `content[0].get("text", "\x7b\x7d")`
and returns `json.loads` of it, or `{"result": text}` when that raises
`JSONDecodeError` (`json.loads` of a non-string raises `TypeError`, which
line 79 does not catch); otherwise falls through to the error branch. -/
def callToolPost (response : Option Json) : Except String Json :=
  match response with
  | some r =>
    if pyTruthy r && r.hasKey "result" then do
      let res ← pySubscript r "result"
      let content ← pyGet res "content" (Json.arr [])
      if pyTruthy content then do
        let l ← pyLen content
        if l > 0 then do
          let c0 ← pyIndex0 content
          let textVal ← pyGet c0 "text" (Json.str "\x7b\x7d")
          match textVal with
          | Json.str s =>
            match jsonLoads s.toList with
            | some v => pure v
            | none => pure (Json.obj [("result", Json.str s)])
          | _ => .error "TypeError"
        else callToolErrorBranch response
      else callToolErrorBranch response
    else callToolErrorBranch response
  | none => callToolErrorBranch response

/-- `MCPClient.call_tool` (mcp_client.py lines 65-85): issue a `tools/call`
request with `{name, arguments}` params and post-process its response. -/
def MCPClient.call_tool (st : ClientState) (name : String) (arguments : Json)
    (evs : List ReadEvent) : Except String Json × ClientState × List ReadEvent :=
  let r := MCPClient._request st "tools/call"
    (Json.obj [("name", Json.str name), ("arguments", arguments)]) evs
  (callToolPost r.resp, r.state, r.rest)

/-- The default `parameters` schema used by `convert_tools_to_ollama` when
a tool omits `inputSchema` (mcp_client.py line 173). -/
def ollamaDefaultParams : Json :=
  Json.obj [("type", Json.str "object"), ("properties", Json.obj [])]

/-- The per-tool body of `convert_tools_to_ollama` (mcp_client.py lines
168-175): `tool["name"]` (raising `KeyError` when absent),
`tool.get("description", "")`, `tool.get("inputSchema", default)`. -/
def convertTool (tool : Json) : Except String Json := do
  let name ← pySubscript tool "name"
  let desc ← pyGet tool "description" (Json.str "")
  let params ← pyGet tool "inputSchema" ollamaDefaultParams
  pure (Json.obj [("type", Json.str "function"),
                  ("function", Json.obj [("name", name),
                                         ("description", desc),
                                         ("parameters", params)])])

/-- `convert_tools_to_ollama` (mcp_client.py lines 163-178): the `for`
loop appending the converted shape of every MCP tool descriptor, in order;
an exception from any element propagates out of the function. -/
def convert_tools_to_ollama : List Json → Except String (List Json)
  | [] => .ok []
  | tool :: rest => do
    let t ← convertTool tool
    let ts ← convert_tools_to_ollama rest
    pure (t :: ts)

/-- A line the read loop of `_request` skips: blank after stripping, not
brace-initial, or brace-initial but rejected by `json.loads`. -/
def skippableLine (s : List Char) : Bool :=
  match pyStrip s with
  | [] => true
  | c :: cs => if c = '{' then (jsonLoads (c :: cs)).isNone else true

/-- Relation between an MCP tool descriptor and its image under
`convert_tools_to_ollama`: the descriptor is an object carrying a name, and
the image is the fixed function-call shape, with the description defaulting
to the empty string and the parameters to the empty-object schema. -/
def ollamaShape (tool out : Json) : Prop :=
  ∃ fs nm, tool = Json.obj fs ∧ lookupField fs "name" = some nm ∧
    out = Json.obj [("type", Json.str "function"),
      ("function", Json.obj [("name", nm),
        ("description", (lookupField fs "description").getD (Json.str "")),
        ("parameters", (lookupField fs "inputSchema").getD ollamaDefaultParams)])]

theorem except_bind_ok {α β : Type} (a : α) (f : α → Except String β) :
    (Except.ok a : Except String α) >>= f = f a := rfl

theorem lookupField_isEmpty_false {fs : List (String × Json)} {k : String}
    {v : Json} (h : lookupField fs k = some v) : fs.isEmpty = false := by
  cases fs with
  | nil => simp [lookupField] at h
  | cons a l => rfl

theorem pyGet_obj (fs : List (String × Json)) (k : String) (d : Json) :
    pyGet (Json.obj fs) k d = .ok ((lookupField fs k).getD d) := by
  simp only [pyGet]
  cases lookupField fs k <;> rfl

theorem readLoop_skip {s : List Char} (evs : List ReadEvent)
    (h : skippableLine s = true) :
    readResponseLoop (ReadEvent.line s :: evs) = readResponseLoop evs := by
  unfold skippableLine at h
  cases hp : pyStrip s with
  | nil => simp only [readResponseLoop, hp]
  | cons c cs =>
    rw [hp] at h
    by_cases hc : c = '{'
    · subst hc
      simp only [if_pos rfl] at h
      cases hj : jsonLoads ('{' :: cs) with
      | none => simp only [readResponseLoop, hp, hj, if_true]
      | some v => rw [hj] at h; simp at h
    · simp only [readResponseLoop, hp, if_neg hc]

theorem readLoop_found {s : List Char} {v : Json} (evs : List ReadEvent)
    (hc : (pyStrip s).head? = some '{')
    (hv : jsonLoads (pyStrip s) = some v) :
    readResponseLoop (ReadEvent.line s :: evs) = (some v, evs) := by
  cases hp : pyStrip s with
  | nil => rw [hp] at hc; simp at hc
  | cons c cs =>
    rw [hp] at hc hv
    simp only [List.head?_cons, Option.some.injEq] at hc
    subst hc
    simp only [readResponseLoop, hp, if_pos rfl, hv, if_true]

theorem readLoop_skipAll {pre : List (List Char)} (evs : List ReadEvent)
    (h : ∀ t ∈ pre, skippableLine t = true) :
    readResponseLoop (pre.map ReadEvent.line ++ evs) = readResponseLoop evs := by
  induction pre with
  | nil => rfl
  | cons t ts ih =>
    simp only [List.map_cons, List.cons_append]
    rw [readLoop_skip _ (h t (by simp))]
    exact ih (fun x hx => h x (by simp [hx]))

theorem runSession_ids (calls : List (String × Json)) (st : ClientState)
    (evs : List ReadEvent) :
    (runSession st calls evs).map WireRequest.id
      = List.range' (st.request_id + 1) calls.length := by
  induction calls generalizing st evs with
  | nil => rfl
  | cons c cs ih =>
    simp only [runSession, List.map_cons, List.length_cons, List.range'_succ]
    rw [ih]
    rfl


/-- C1: the claim is false on the code: `_request` performs no id
comparison, so with request id 1 outstanding the first decoded candidate is
returned even though it bears id 2. -/
theorem C1_counterexample :
    (MCPClient._request ⟨0⟩ "tools/list" (Json.obj [])
        [ReadEvent.line "\x7b\"id\": 2\x7d".toList]).wire.id = 1 ∧
    (MCPClient._request ⟨0⟩ "tools/list" (Json.obj [])
        [ReadEvent.line "\x7b\"id\": 2\x7d".toList]).resp
      = some (Json.obj [("id", Json.num 2)]) :=
  ⟨rfl, rfl⟩

/-- C1 (amended): the value returned by `_request` is the first decoded
candidate message in the stream, regardless of its id field; lines that are
not candidates or fail to decode are read and discarded. -/
theorem C1_first_candidate (st : ClientState) (method : String) (params : Json)
    (pre : List (List Char)) (s : List Char) (v : Json) (evs : List ReadEvent)
    (hpre : ∀ t ∈ pre, skippableLine t = true)
    (hc : (pyStrip s).head? = some '{')
    (hv : jsonLoads (pyStrip s) = some v) :
    (MCPClient._request st method params
        (pre.map ReadEvent.line ++ ReadEvent.line s :: evs)).resp = some v := by
  simp only [MCPClient._request]
  rw [readLoop_skipAll _ hpre, readLoop_found evs hc hv]

/-- Witness for C1 (amended): a banner line is discarded and the next
decoded candidate, bearing id 7, is returned. -/
theorem C1_witness :
    (MCPClient._request ⟨0⟩ "tools/list" (Json.obj [])
        [ReadEvent.line "INFO: server ready".toList,
         ReadEvent.line "\x7b\"id\": 7, \"result\": \x7b\x7d\x7d".toList]).resp
      = some (Json.obj [("id", Json.num 7), ("result", Json.obj [])]) :=
  C1_first_candidate ⟨0⟩ "tools/list" (Json.obj [])
    ["INFO: server ready".toList] "\x7b\"id\": 7, \"result\": \x7b\x7d\x7d".toList
    (Json.obj [("id", Json.num 7), ("result", Json.obj [])]) []
    (by decide) (by decide) (by rfl)

/-- C2: the claim is false on the code: on a process that ignores the
termination signal, `stop` kills it but performs no reap afterwards (the
only `wait` raised `TimeoutExpired` without reaping), so the forced branch
has zero reaps, not one. -/
theorem C2_counterexample :
    killCount (MCPClient.stop ⟨false⟩) = 1 ∧
    reapCount (MCPClient.stop ⟨false⟩) = 0 :=
  ⟨rfl, rfl⟩

/-- C2 (amended): `stop` first requests graceful termination, waits at most
the grace period and kills exactly once if the process has not exited; the
graceful branch performs exactly one reap and no kill, while the forced
branch performs the kill but no reap. -/
theorem C2_stop_shutdown (p : ProcBehavior) :
    (MCPClient.stop p).head? = some StopEvent.terminate ∧
    killCount (MCPClient.stop p) = (if p.exitsWithinGrace then 0 else 1) ∧
    reapCount (MCPClient.stop p) = (if p.exitsWithinGrace then 1 else 0) := by
  obtain ⟨b⟩ := p
  cases b <;> exact ⟨rfl, rfl, rfl⟩

/-- C3: the claim is false on the code: a timed-out call and a call that
hit end-of-stream return the identical value `None`, so the caller cannot
distinguish the Timeout failure from the ConnectionClosed failure. -/
theorem C3_counterexample :
    (MCPClient._request ⟨0⟩ "tools/call" (Json.obj []) [ReadEvent.timeout]).resp
      = (MCPClient._request ⟨0⟩ "tools/call" (Json.obj []) [ReadEvent.eof]).resp ∧
    (MCPClient._request ⟨0⟩ "tools/call" (Json.obj []) [ReadEvent.timeout]).resp = none :=
  ⟨rfl, rfl⟩

/-- C3 (amended): a timed-out call returns `None`, the same value an
end-of-stream failure returns, distinguishable only from success; the
session is not poisoned: a subsequent call on the same correlator succeeds
against a fresh decoded candidate. -/
theorem C3_timeout_then_recover (st : ClientState) (m1 m2 : String)
    (p1 p2 : Json) (s : List Char) (v : Json) (evs : List ReadEvent)
    (hc : (pyStrip s).head? = some '{')
    (hv : jsonLoads (pyStrip s) = some v) :
    (MCPClient._request st m1 p1 (ReadEvent.timeout :: ReadEvent.line s :: evs)).resp
      = none ∧
    (MCPClient._request
        (MCPClient._request st m1 p1 (ReadEvent.timeout :: ReadEvent.line s :: evs)).state
        m2 p2
        (MCPClient._request st m1 p1 (ReadEvent.timeout :: ReadEvent.line s :: evs)).rest).resp
      = some v ∧
    some v ≠ (none : Option Json) := by
  refine ⟨rfl, ?_, by simp⟩
  show (MCPClient._request ⟨st.request_id + 1⟩ m2 p2 (ReadEvent.line s :: evs)).resp = some v
  simp only [MCPClient._request]
  rw [readLoop_found evs hc hv]

/-- Witness for C3 (amended): after a timeout, the very next call returns
the fresh response bearing id 2. -/
theorem C3_witness :
    (MCPClient._request ⟨0⟩ "tools/call" (Json.obj [])
        (ReadEvent.timeout :: ReadEvent.line "\x7b\"id\": 2, \"result\": \x7b\x7d\x7d".toList :: [])).resp
      = none ∧
    (MCPClient._request
        (MCPClient._request ⟨0⟩ "tools/call" (Json.obj [])
          (ReadEvent.timeout :: ReadEvent.line "\x7b\"id\": 2, \"result\": \x7b\x7d\x7d".toList :: [])).state
        "tools/call" (Json.obj [])
        (MCPClient._request ⟨0⟩ "tools/call" (Json.obj [])
          (ReadEvent.timeout :: ReadEvent.line "\x7b\"id\": 2, \"result\": \x7b\x7d\x7d".toList :: [])).rest).resp
      = some (Json.obj [("id", Json.num 2), ("result", Json.obj [])]) ∧
    some (Json.obj [("id", Json.num 2), ("result", Json.obj [])]) ≠ (none : Option Json) :=
  C3_timeout_then_recover ⟨0⟩ "tools/call" "tools/call" (Json.obj []) (Json.obj [])
    "\x7b\"id\": 2, \"result\": \x7b\x7d\x7d".toList
    (Json.obj [("id", Json.num 2), ("result", Json.obj [])]) []
    (by decide) (by rfl)

/-- C4: across every sequence of calls in one session, whatever each call's
outcome, the request ids written to the wire are exactly 1, 2, 3, ...:
`List.range' 1 n` is the list of the first n ids starting at 1 stepping by
1, so the first id is 1, each id is the previous plus one and none is
reused. -/
theorem C4_wire_ids (calls : List (String × Json)) (evs : List ReadEvent) :
    (runSession ⟨0⟩ calls evs).map WireRequest.id = List.range' 1 calls.length :=
  runSession_ids calls ⟨0⟩ evs

/-- C6: a read line is skipped silently — the loop continues on the rest of
the stream with no error outcome — exactly when, after stripping, it is
empty, does not start with a brace, or fails to decode; otherwise it is a
candidate that decodes and is returned. -/
theorem C6_noise_lines (s : List Char) (evs : List ReadEvent) :
    (skippableLine s = true →
      readResponseLoop (ReadEvent.line s :: evs) = readResponseLoop evs) ∧
    (skippableLine s = false →
      ∃ v, (pyStrip s).head? = some '{' ∧ jsonLoads (pyStrip s) = some v ∧
        readResponseLoop (ReadEvent.line s :: evs) = (some v, evs)) := by
  constructor
  · exact readLoop_skip evs
  · intro h
    unfold skippableLine at h
    cases hp : pyStrip s with
    | nil => rw [hp] at h; simp at h
    | cons c cs =>
      rw [hp] at h
      by_cases hc : c = '{'
      · subst hc
        have h2 : (jsonLoads ('{' :: cs)).isNone = false := by
          have h3 : (if ('{' : Char) = '{' then (jsonLoads ('{' :: cs)).isNone
              else true) = false := h
          rwa [if_pos rfl] at h3
        cases hj : jsonLoads ('{' :: cs) with
        | none => rw [hj] at h2; simp at h2
        | some v =>
          refine ⟨v, ?_, ?_, ?_⟩
          · rfl
          · rfl
          · exact readLoop_found evs (by rw [hp]; rfl) (by rw [hp, hj])
      · have h3 : (if c = '{' then (jsonLoads (c :: cs)).isNone
            else true) = false := h
        rw [if_neg hc] at h3
        simp at h3

/-- Witness for C6: a startup banner line is skipped and the loop falls
through to end-of-stream. -/
theorem C6_witness :
    readResponseLoop [ReadEvent.line "Server starting...".toList, ReadEvent.eof]
      = readResponseLoop [ReadEvent.eof] :=
  (C6_noise_lines "Server starting...".toList [ReadEvent.eof]).1 (by decide)

theorem pyTruthy_of_hasKey {r : Json} {k : String} (h : r.hasKey k = true) :
    pyTruthy r = true := by
  cases r with
  | obj fs =>
    cases fs with
    | nil => simp [Json.hasKey, lookupField] at h
    | cons a l => rfl
  | null => simp [Json.hasKey] at h
  | bool b => simp [Json.hasKey] at h
  | num n => simp [Json.hasKey] at h
  | str s => simp [Json.hasKey] at h
  | arr l => simp [Json.hasKey] at h

/-- C7: the handshake reports success exactly when the initialize request
yields a response carrying a `result` key; the wire trace is the initialize
request (id 1) followed, exactly in the success case, by the
`notifications/initialized` notification — so the notification is never
written before the initialize response arrived nor on failure. -/
theorem C7_handshake (evs : List ReadEvent) :
    ((MCPClient.start evs).ok = true ↔
      ∃ resp, (readResponseLoop evs).1 = some resp ∧ resp.hasKey "result" = true) ∧
    ((MCPClient.start evs).wire
      = WireMsg.request 1 "initialize" initializeParams ::
          (if (MCPClient.start evs).ok then
            [WireMsg.notification "notifications/initialized" (Json.obj [])]
          else [])) ∧
    ((WireMsg.notification "notifications/initialized" (Json.obj [])
        ∈ (MCPClient.start evs).wire) ↔ (MCPClient.start evs).ok = true) := by
  cases hr : (readResponseLoop evs).1 with
  | none =>
    simp only [MCPClient.start, MCPClient._request, hr]
    refine ⟨by simp [hr], rfl, by simp⟩
  | some resp =>
    by_cases hb : (pyTruthy resp && Json.hasKey resp "result") = true
    · simp only [MCPClient.start, MCPClient._request, hr, hb, if_true]
      refine ⟨?_, trivial, by simp⟩
      simp only [true_iff]
      refine ⟨resp, rfl, ?_⟩
      cases hk : Json.hasKey resp "result" with
      | true => rfl
      | false => rw [hk, Bool.and_false] at hb; exact absurd hb (by simp)
    · rw [Bool.not_eq_true] at hb
      simp only [MCPClient.start, MCPClient._request, hr, hb, Bool.false_eq_true, if_false]
      refine ⟨?_, trivial, by simp⟩
      simp only [false_iff]
      rintro ⟨resp', h1, h2⟩
      injection h1 with h1'
      subst h1'
      rw [pyTruthy_of_hasKey h2, h2] at hb
      simp at hb


theorem convertTool_ok {fs : List (String × Json)} {nm : Json}
    (hnm : lookupField fs "name" = some nm) :
    convertTool (Json.obj fs)
      = .ok (Json.obj [("type", Json.str "function"),
          ("function", Json.obj [("name", nm),
            ("description", (lookupField fs "description").getD (Json.str "")),
            ("parameters", (lookupField fs "inputSchema").getD ollamaDefaultParams)])]) := by
  simp only [convertTool, pySubscript, hnm, except_bind_ok, pyGet_obj]
  rfl

/-- C8: `convert_tools_to_ollama` maps each tool descriptor, preserving
order and count, to the fixed shape with the discriminator field valued
`"function"`, the description defaulting to the empty string and the
parameters defaulting to the empty-object schema. -/
theorem C8_convert_shape (tools : List Json)
    (h : ∀ t ∈ tools, ∃ fs nm, t = Json.obj fs ∧ lookupField fs "name" = some nm) :
    ∃ out, convert_tools_to_ollama tools = .ok out ∧
      out.length = tools.length ∧ List.Forall₂ ollamaShape tools out := by
  induction tools with
  | nil => exact ⟨[], rfl, rfl, List.Forall₂.nil⟩
  | cons t ts ih =>
    obtain ⟨fs, nm, ht, hnm⟩ := h t (by simp)
    obtain ⟨out, hout, hlen, hrel⟩ := ih (fun x hx => h x (by simp [hx]))
    subst ht
    refine ⟨Json.obj [("type", Json.str "function"),
        ("function", Json.obj [("name", nm),
          ("description", (lookupField fs "description").getD (Json.str "")),
          ("parameters", (lookupField fs "inputSchema").getD ollamaDefaultParams)])] :: out,
      ?_, by simp [hlen], List.Forall₂.cons ⟨fs, nm, rfl, hnm, rfl⟩ hrel⟩
    simp only [convert_tools_to_ollama, convertTool_ok hnm, except_bind_ok, hout]
    rfl

/-- Witness for C8: the descriptor `\x7b"name": "connect"\x7d`, which omits
both the description and the input schema, converts successfully. -/
theorem C8_witness :
    ∃ out, convert_tools_to_ollama [Json.obj [("name", Json.str "connect")]] = .ok out ∧
      out.length = 1 ∧
      List.Forall₂ ollamaShape [Json.obj [("name", Json.str "connect")]] out :=
  C8_convert_shape [Json.obj [("name", Json.str "connect")]]
    (by intro t ht
        rw [List.mem_singleton] at ht
        subst ht
        exact ⟨[("name", Json.str "connect")], Json.str "connect", rfl, rfl⟩)

/-- C9: the claim is false on the code: on a response whose `result` field
is present but not a dict, `list_tools` raises `AttributeError` instead of
returning the empty sequence. -/
theorem C9_counterexample :
    listToolsPost (some (Json.obj [("result", Json.num 5)])) = .error "AttributeError" :=
  rfl

/-- C9 (amended): `list_tools` returns the server-advertised tools value
unchanged (hence in original order) when the response carries a dict
`result`, and the empty sequence when the response is absent, lacks a
`result` key, or its dict `result` lacks a `tools` entry; but when `result`
is present and not a dict it raises. -/
theorem C9_list_tools (fs rfs : List (String × Json)) :
    (listToolsPost none = .ok (Json.arr [])) ∧
    (lookupField fs "result" = none →
      listToolsPost (some (Json.obj fs)) = .ok (Json.arr [])) ∧
    (lookupField fs "result" = some (Json.obj rfs) →
      listToolsPost (some (Json.obj fs))
        = .ok ((lookupField rfs "tools").getD (Json.arr []))) := by
  refine ⟨rfl, ?_, ?_⟩
  · intro h
    simp only [listToolsPost, Json.hasKey, h, Option.isSome_none, Bool.and_false,
      Bool.false_eq_true, if_false]
  · intro h
    have hne := lookupField_isEmpty_false h
    simp only [listToolsPost, Json.hasKey, pyTruthy, h, hne, Option.isSome_some,
      Bool.not_false, Bool.and_self, if_true, pySubscript, except_bind_ok, pyGet_obj]

/-- Witness for C9 (amended): the fake-server reply of the spec yields the
one-element descriptor list with name `connect`. -/
theorem C9_witness :
    listToolsPost (some (Json.obj [("id", Json.num 1),
        ("result", Json.obj [("tools", Json.arr [Json.obj [("name", Json.str "connect"),
          ("description", Json.str "d")]])])]))
      = .ok (Json.arr [Json.obj [("name", Json.str "connect"),
          ("description", Json.str "d")]]) :=
  ((C9_list_tools [("id", Json.num 1),
      ("result", Json.obj [("tools", Json.arr [Json.obj [("name", Json.str "connect"),
        ("description", Json.str "d")]])])]
      [("tools", Json.arr [Json.obj [("name", Json.str "connect"),
        ("description", Json.str "d")]])]).2.2 rfl).trans rfl


/-- C5: the claim is false on the code: `call_tool` can raise.  On a
response whose `result` field is present but not a dict, the attribute
access `response["result"].get("content", [])` raises `AttributeError`,
which `call_tool` does not catch. -/
theorem C5_counterexample :
    callToolPost (some (Json.obj [("result", Json.num 5)])) = .error "AttributeError" :=
  rfl

/-- C5 (amended): for protocol-shaped responses `call_tool` does not raise
and returns: the decode of the first content element's `text` when the
response carries a dict `result` with such content, or `\x7bresult: text\x7d`
when the decode fails; `\x7berror: message-or-fallback\x7d` when the
response carries a dict `error` and no `result`; and the no-response error
value when there is no response at all.  (A `result` or `error` field of an
unexpected type makes `call_tool` raise, per the counterexample.) -/
theorem C5_call_tool (fs rfs c0fs efs : List (String × Json)) (cs : List Json)
    (s : String) :
    ((lookupField fs "result" = some (Json.obj rfs)) →
      lookupField rfs "content" = some (Json.arr (Json.obj c0fs :: cs)) →
      lookupField c0fs "text" = some (Json.str s) →
      callToolPost (some (Json.obj fs))
        = .ok ((jsonLoads s.toList).getD (Json.obj [("result", Json.str s)]))) ∧
    ((lookupField fs "result" = none) →
      lookupField fs "error" = some (Json.obj efs) →
      callToolPost (some (Json.obj fs))
        = .ok (Json.obj [("error",
            (lookupField efs "message").getD (Json.str "Unknown error"))])) ∧
    callToolPost none = .ok noResponseError := by
  refine ⟨?_, ?_, rfl⟩
  · intro h1 h2 h3
    have hne := lookupField_isEmpty_false h1
    have hlen : 0 < cs.length + 1 := Nat.succ_pos _
    simp only [callToolPost, Json.hasKey, pyTruthy, h1, hne, Option.isSome_some,
      Bool.not_false, Bool.and_self, if_true, pySubscript, except_bind_ok, pyGet_obj,
      h2, Option.getD_some, List.isEmpty_cons, pyLen, List.length_cons, hlen,
      pyIndex0, h3]
    cases hj : jsonLoads s.toList <;> simp only [hj] <;> rfl
  · intro h1 h2
    have hne := lookupField_isEmpty_false h2
    simp only [callToolPost, Json.hasKey, h1, Option.isSome_none, Bool.and_false,
      Bool.false_eq_true, if_false, callToolErrorBranch, pyTruthy, hne, h2,
      Option.isSome_some, Bool.not_false, Bool.and_self, if_true, pySubscript,
      except_bind_ok, pyGet_obj]
    rfl

/-- Witness for C5 (amended): the spec's two examples — a content text that
decodes to `\x7b"battery_percentage":87\x7d`, and one that is not JSON and
is wrapped as `\x7b"result": "not json"\x7d`. -/
theorem C5_witness :
    callToolPost (some (Json.obj [("id", Json.num 1), ("result", Json.obj [("content",
        Json.arr [Json.obj [("type", Json.str "text"), ("text",
          Json.str "\x7b\"battery_percentage\":87\x7d")]])])]))
      = .ok (Json.obj [("battery_percentage", Json.num 87)]) ∧
    callToolPost (some (Json.obj [("result", Json.obj [("content",
        Json.arr [Json.obj [("text", Json.str "not json")]])])]))
      = .ok (Json.obj [("result", Json.str "not json")]) :=
  ⟨((C5_call_tool [("id", Json.num 1), ("result", Json.obj [("content",
        Json.arr [Json.obj [("type", Json.str "text"), ("text",
          Json.str "\x7b\"battery_percentage\":87\x7d")]])])]
      [("content", Json.arr [Json.obj [("type", Json.str "text"), ("text",
        Json.str "\x7b\"battery_percentage\":87\x7d")]])]
      [("type", Json.str "text"), ("text", Json.str "\x7b\"battery_percentage\":87\x7d")]
      [] [] "\x7b\"battery_percentage\":87\x7d").1 rfl rfl rfl).trans rfl,
   ((C5_call_tool [("result", Json.obj [("content",
        Json.arr [Json.obj [("text", Json.str "not json")]])])]
      [("content", Json.arr [Json.obj [("text", Json.str "not json")]])]
      [("text", Json.str "not json")]
      [] [] "not json").1 rfl rfl rfl).trans rfl⟩

/-- C10: a successful reply whose `content` list is empty or absent yields
the `"No response from MCP server"` error value, and a first content
element lacking a `text` field yields the empty object, the decode of the
default text. -/
theorem C10_degenerate_content (fs rfs c0fs : List (String × Json)) (cs : List Json) :
    ((lookupField fs "result" = some (Json.obj rfs)) →
      (lookupField rfs "content" = none ∨ lookupField rfs "content" = some (Json.arr [])) →
      lookupField fs "error" = none →
      callToolPost (some (Json.obj fs)) = .ok noResponseError) ∧
    ((lookupField fs "result" = some (Json.obj rfs)) →
      lookupField rfs "content" = some (Json.arr (Json.obj c0fs :: cs)) →
      lookupField c0fs "text" = none →
      callToolPost (some (Json.obj fs)) = .ok (Json.obj [])) := by
  constructor
  · intro h1 hc herr
    have hne := lookupField_isEmpty_false h1
    have hcd : (lookupField rfs "content").getD (Json.arr []) = Json.arr [] := by
      cases hc with
      | inl h => rw [h]; rfl
      | inr h => rw [h]; rfl
    simp only [callToolPost, Json.hasKey, pyTruthy, h1, hne, Option.isSome_some,
      Bool.not_false, Bool.and_self, if_true, pySubscript, except_bind_ok, pyGet_obj,
      hcd, List.isEmpty_nil, Bool.not_true, Bool.false_eq_true, if_false,
      callToolErrorBranch, herr, Option.isSome_none, Bool.and_false]
  · intro h1 h2 h3
    have hne := lookupField_isEmpty_false h1
    have hlen : 0 < cs.length + 1 := Nat.succ_pos _
    simp only [callToolPost, Json.hasKey, pyTruthy, h1, hne, Option.isSome_some,
      Bool.not_false, Bool.and_self, if_true, pySubscript, except_bind_ok, pyGet_obj,
      h2, Option.getD_some, List.isEmpty_cons, pyLen, List.length_cons, hlen,
      pyIndex0, h3]
    rfl

/-- Witness for C10: a reply with an empty content list yields the
no-response error value, and a first content element with no `text` field
yields the empty object. -/
theorem C10_witness :
    callToolPost (some (Json.obj [("result", Json.obj [("content", Json.arr [])])]))
      = .ok noResponseError ∧
    callToolPost (some (Json.obj [("result", Json.obj [("content",
        Json.arr [Json.obj [("type", Json.str "image")]])])]))
      = .ok (Json.obj []) :=
  ⟨(C10_degenerate_content [("result", Json.obj [("content", Json.arr [])])]
      [("content", Json.arr [])] [] []).1 rfl (Or.inr rfl) rfl,
   (C10_degenerate_content [("result", Json.obj [("content",
        Json.arr [Json.obj [("type", Json.str "image")]])])]
      [("content", Json.arr [Json.obj [("type", Json.str "image")]])]
      [("type", Json.str "image")] []).2 rfl rfl rfl⟩

end RvrChat
